import Mathlib

/-!
Shallow embedding of the clip-selection front end of `stream.new`.

The embedded code:
* `src/components/video-clipper.tsx` — the `VideoClipper` component:
  its React state, the `Set start` / `Set end` button handlers, the
  `updated` listener on the `media-trimmer` element, the
  `[startTime, endTime]` seek effect, `createClip`, `onImageLoad`,
  and the cleanup function of the HLS-wiring effect.
* `src/lib/urlutils.ts` — `deliveryDomain`, `getStreamBaseUrl`,
  `getImageBaseUrl`.

Modelling conventions:
* JS numbers that hold playback positions are modelled as `ℚ`
  (positions are finite non-negative decimals in practice).
* React `useState` fields and `useRef` cells form one record,
  `ClipperState`; a handler is a function `ClipperState → ClipperState`
  (or `… × List Effect` when it performs side effects).
* `useEffect` bodies run after a state update is committed: they are
  modelled as functions of the committed state, mirroring React's
  render-commit-effect ordering.
* `fetch` resolves to an `HttpResponse` (status plus body); `fetch`
  itself rejects only on network error, which — together with a
  `res.json()` parse failure — is the `FetchResult.networkError` /
  `BodyParse.parseError` path into the `catch` block.
* `JSON.stringify({ playbackId, startTime, endTime })` is modelled as
  the literal association list of the three serialized fields (a `null`
  marker serializes to JSON `null`; none of the three is ever omitted).
-/

/-- A JSON value as it appears in the request body built by `createClip`. -/
inductive JsonVal where
  | str (s : String)
  | num (q : ℚ)
  | null
  deriving DecidableEq, Repr

/-- Side effects the component performs on the browser environment. -/
inductive Effect where
  | seek (t : ℚ)
  | callOnLoaded
  | logError (msg : String)
  | logDebug (msg : String)
  | fetchPost (url : String) (body : List (String × JsonVal))
  | navigate (path : String)
  deriving DecidableEq, Repr

/-- The `VideoClipper` component state: the `useState` hooks
`isVertical`, `errorMessage`, `isCreatingClip`, `startTime`, `endTime`
and the `useRef` cells `prevStartTime`, `prevEndTime`.  `none` models
the JS `null` / `undefined` initial values. -/
structure ClipperState where
  isVertical : Option Bool
  errorMessage : String
  isCreatingClip : Bool
  startTime : Option ℚ
  endTime : Option ℚ
  prevStartTime : Option ℚ
  prevEndTime : Option ℚ
  deriving DecidableEq, Repr

/-- The state at first render of `VideoClipper`. -/
def initState : ClipperState :=
  { isVertical := none
  , errorMessage := ""
  , isCreatingClip := false
  , startTime := none
  , endTime := none
  , prevStartTime := none
  , prevEndTime := none }

/-- JS `Math.round` on a (non-NaN, finite) number: round half away from
zero; for the non-negative values a media element's `currentTime` takes,
this is `⌊q + 1/2⌋`. -/
def jsRound (q : ℚ) : ℤ := ⌊q + 1/2⌋

/-- The `Set start` button handler:
`setStartTime(Math.round(videoRef.current?.currentTime || 0))`.
`pos` is `videoRef.current?.currentTime` (`none` when the ref is null);
`|| 0` turns a missing (or zero) position into `0`. -/
def setStartClick (pos : Option ℚ) (s : ClipperState) : ClipperState :=
  { s with startTime := some ((jsRound (pos.getD 0) : ℤ) : ℚ) }

/-- The `Set end` button handler:
`setEndTime(Math.round(videoRef.current?.currentTime || 0))`. -/
def setEndClick (pos : Option ℚ) (s : ClipperState) : ClipperState :=
  { s with endTime := some ((jsRound (pos.getD 0) : ℤ) : ℚ) }

/-- The `updated` listener installed on the `media-trimmer` element:
`const { startTime, endTime } = evt.detail; setStartTime(startTime);
setEndTime(endTime);`. -/
def onTrimmerUpdated (st en : ℚ) (s : ClipperState) : ClipperState :=
  { s with startTime := some st, endTime := some en }

/-- The `useEffect` with dependencies `[startTime, endTime]`: for each of
the two markers, when it differs from the `prev…` ref, assign
`videoRef.current.currentTime = (marker || 0)` and update the ref; then
`console.log('debug new', …)`.  It runs on the committed state. -/
def runSeekEffect (s : ClipperState) : ClipperState × List Effect :=
  let startPart :
      List Effect × Option ℚ :=
    if s.startTime = s.prevStartTime then ([], s.prevStartTime)
    else ([Effect.seek (s.startTime.getD 0)], s.startTime)
  let endPart :
      List Effect × Option ℚ :=
    if s.endTime = s.prevEndTime then ([], s.prevEndTime)
    else ([Effect.seek (s.endTime.getD 0)], s.endTime)
  ({ s with prevStartTime := startPart.2, prevEndTime := endPart.2 },
   startPart.1 ++ endPart.1 ++ [Effect.logDebug "debug new"])

/-- `onImageLoad` of the clipper: with truthy width and height, set
`isVertical` to `w / h < 1` and call `onLoaded()`; otherwise call
`onLoaded()` and `console.error('Error getting img dimensions', …)`. -/
def onImageLoad (w h : ℕ) (s : ClipperState) : ClipperState × List Effect :=
  if w ≠ 0 ∧ h ≠ 0 then
    ({ s with isVertical := some ((w : ℚ) / (h : ℚ) < 1) },
     [Effect.callOnLoaded])
  else
    (s, [Effect.callOnLoaded, Effect.logError "Error getting img dimensions"])

/-- Serialization of one marker inside
`JSON.stringify({ playbackId, startTime, endTime })`: a number, or JSON
`null` when the marker is still the JS `null` initial value. -/
def markerJson : Option ℚ → JsonVal
  | none => JsonVal.null
  | some q => JsonVal.num q

/-- The request body `JSON.stringify({ playbackId, startTime, endTime })`
of `createClip`: exactly these three fields, in this order. -/
def clipRequestBody (playbackId : String) (s : ClipperState) :
    List (String × JsonVal) :=
  [("playbackId", JsonVal.str playbackId),
   ("startTime", markerJson s.startTime),
   ("endTime", markerJson s.endTime)]

/-- What `fetch('/api/clips', …)` comes back with. -/
inductive BodyParse where
  | parseError
  | obj (id : Option String)
  deriving DecidableEq, Repr

/-- An HTTP response: status code and body.  `createClip` never reads
`status` (or `ok`); `BodyParse.obj id` is the result of `res.json()`,
with `id = none` when the parsed object has no `id` field. -/
structure HttpResponse where
  status : ℕ
  body : BodyParse
  deriving DecidableEq, Repr

/-- Either the network request fails (`fetch` rejects) or a response of
some status arrives. -/
inductive FetchResult where
  | networkError
  | ok (r : HttpResponse)
  deriving DecidableEq, Repr

/-- JS template-string interpolation of the destructured `id` in
`` Router.push({ pathname: `/assets/${id}` }) ``: an absent field is
`undefined` and interpolates as the string `"undefined"`. -/
def idString : Option String → String
  | some i => i
  | none => "undefined"

/-- The synchronous prefix of `createClip`: `setErrorMessage('')`,
`setIsCreatingClip(true)`, and the `fetch` POST whose body captures the
current `startTime` / `endTime`. -/
def createClipStart (playbackId : String) (s : ClipperState) :
    ClipperState × Effect :=
  ({ s with errorMessage := "", isCreatingClip := true },
   Effect.fetchPost "/api/clips" (clipRequestBody playbackId s))

/-- The continuation of `createClip` once the fetch settles.  A network
error, or a body that fails JSON parsing, rejects the awaited chain and
lands in the `catch` block (`console.error`, `setIsCreatingClip(false)`,
`setErrorMessage('Error creating this clip')`).  Any response whose body
parses as JSON — the status is never inspected — reaches the second
`.then`: `setIsCreatingClip(false)` and `Router.push` to
`/assets/${id}`. -/
def createClipResolve (s : ClipperState) (res : FetchResult) :
    ClipperState × List Effect :=
  match res with
  | FetchResult.networkError =>
      ({ s with isCreatingClip := false
              , errorMessage := "Error creating this clip" },
       [Effect.logError "Error in createUpload"])
  | FetchResult.ok r =>
      match r.body with
      | BodyParse.parseError =>
          ({ s with isCreatingClip := false
                  , errorMessage := "Error creating this clip" },
           [Effect.logError "Error in createUpload"])
      | BodyParse.obj id =>
          ({ s with isCreatingClip := false },
           [Effect.navigate ("/assets/" ++ idString id)])

/-- One whole run of `createClip`: the synchronous prefix followed by
the continuation on the settled fetch. -/
def createClipStep (playbackId : String) (s : ClipperState)
    (res : FetchResult) : ClipperState × List Effect :=
  let started := createClipStart playbackId s
  let resolved := createClipResolve started.1 res
  (resolved.1, started.2 :: resolved.2)

/-- Does the awaited promise chain of `createClip` reject (and so reach
the `catch` block)?  Only a network error or a JSON parse failure does;
an HTTP error status alone does not. -/
def chainRejects : FetchResult → Bool
  | FetchResult.networkError => true
  | FetchResult.ok r =>
      match r.body with
      | BodyParse.parseError => true
      | BodyParse.obj _ => false

/-- Recognizer for the POST effect, used to count requests. -/
def isFetchPost : Effect → Bool
  | Effect.fetchPost _ _ => true
  | _ => false

/-- Recognizer for navigation effects. -/
def isNavigate : Effect → Bool
  | Effect.navigate _ => true
  | _ => false

/-- Cleanup actions available to the unmount phase. -/
inductive CleanupAction where
  | removeErrorListener
  | destroyHls
  | abortFetch
  deriving DecidableEq, Repr

/-- The cleanup function returned by the HLS-wiring `useEffect` of
`VideoClipper`: remove the `error` listener when the video element
exists, destroy the `Hls` instance when one was created.  Nothing else
in the component registers an unmount cleanup. -/
def hlsEffectCleanup (videoPresent hlsCreated : Bool) : List CleanupAction :=
  (if videoPresent then [CleanupAction.removeErrorListener] else []) ++
  (if hlsCreated then [CleanupAction.destroyHls] else [])

/-- `src/lib/urlutils.ts`:
`process.env.NEXT_PUBLIC_MUX_BYO_DOMAIN || "mux.com"`.  `env` is the
variable's value (`none` when unset; the empty string is falsy). -/
def deliveryDomain (env : Option String) : String :=
  if env.getD "" = "" then "mux.com" else env.getD ""

/-- `getStreamBaseUrl` of `src/lib/urlutils.ts`, parameterized by the
ambient `NEXT_PUBLIC_MUX_BYO_DOMAIN` it could have read. -/
def getStreamBaseUrl (_env : Option String) : String :=
  "https://stream.staging.mux.com"

/-- `getImageBaseUrl` of `src/lib/urlutils.ts`. -/
def getImageBaseUrl (_env : Option String) : String :=
  "https://image.staging.mux.com"

/-- The HLS source URL the clipper hands to the video element:
`` `https://stream.mux.com/${playbackId}.m3u8` ``. -/
def clipperVideoSrc (playbackId : String) : String :=
  "https://stream.mux.com/" ++ playbackId ++ ".m3u8"

/-! ## Claims -/

/-- C1: with both markers set, `createClip` issues exactly one POST to
`/api/clips` whose body is exactly the three fields
`playbackId`, `startTime`, `endTime`, and on a response whose JSON body
carries `id = "xyz"` it navigates to `/assets/xyz`. -/
theorem clip_create_request_and_navigation (pid : String) (st et : ℚ)
    (s : ClipperState) (r : HttpResponse)
    (hst : s.startTime = some st) (het : s.endTime = some et)
    (hid : r.body = BodyParse.obj (some "xyz")) :
    (createClipStep pid s (FetchResult.ok r)).2.filter isFetchPost
        = [Effect.fetchPost "/api/clips"
            [("playbackId", JsonVal.str pid),
             ("startTime", JsonVal.num st),
             ("endTime", JsonVal.num et)]]
    ∧ Effect.navigate "/assets/xyz" ∈ (createClipStep pid s (FetchResult.ok r)).2 := by
  constructor <;>
    simp [createClipStep, createClipStart, createClipResolve, clipRequestBody,
      markerJson, hst, het, hid, isFetchPost, idString, List.filter]

/-- C1 witness: the concrete run of the spec's own example
(`startTime = 5`, `endTime = 12`, `sourceId = "abc"`, response
`{id: "xyz"}`). -/
theorem clip_create_request_and_navigation_witness :
    (createClipStep "abc"
        { initState with startTime := some 5, endTime := some 12 }
        (FetchResult.ok ⟨200, BodyParse.obj (some "xyz")⟩)).2.filter isFetchPost
        = [Effect.fetchPost "/api/clips"
            [("playbackId", JsonVal.str "abc"),
             ("startTime", JsonVal.num 5),
             ("endTime", JsonVal.num 12)]]
    ∧ Effect.navigate "/assets/xyz" ∈ (createClipStep "abc"
        { initState with startTime := some 5, endTime := some 12 }
        (FetchResult.ok ⟨200, BodyParse.obj (some "xyz")⟩)).2 :=
  clip_create_request_and_navigation "abc" 5 12
    { initState with startTime := some 5, endTime := some 12 }
    ⟨200, BodyParse.obj (some "xyz")⟩ rfl rfl rfl

/-- C2 counterexample: an HTTP non-success response (status 500) whose
body parses as JSON (an object without an `id` field) is a failure
response the claim covers, yet `createClip` surfaces no error message
and does navigate — to `/assets/undefined`. -/
theorem clip_http_error_counterexample :
    (createClipStep "abc"
        { initState with startTime := some 5, endTime := some 12 }
        (FetchResult.ok ⟨500, BodyParse.obj none⟩)).1.errorMessage = ""
    ∧ Effect.navigate "/assets/undefined" ∈ (createClipStep "abc"
        { initState with startTime := some 5, endTime := some 12 }
        (FetchResult.ok ⟨500, BodyParse.obj none⟩)).2 := by
  constructor <;>
    simp [createClipStep, createClipStart, createClipResolve, idString, initState]

/-- C2 amended: `createClip` surfaces the inline error, performs no
navigation, and leaves the component able to resubmit exactly for the
failures that reject the awaited promise chain — a network error or a
response body that fails JSON parsing; it never issues a second request.
The HTTP status is never inspected: for a body that parses as JSON, the
outcome is identical for every status, so a non-success status with a
JSON body navigates instead of surfacing an error. -/
theorem clip_rejection_error_handling (pid : String) (s : ClipperState)
    (res : FetchResult) (hrej : chainRejects res = true) :
    (createClipStep pid s res).1.errorMessage = "Error creating this clip"
    ∧ (createClipStep pid s res).1.isCreatingClip = false
    ∧ (createClipStep pid s res).2.filter isNavigate = []
    ∧ ((createClipStep pid s res).2.filter isFetchPost).length = 1
    ∧ ∀ st1 st2 : ℕ, ∀ b : BodyParse,
        createClipStep pid s (FetchResult.ok ⟨st1, b⟩)
          = createClipStep pid s (FetchResult.ok ⟨st2, b⟩) := by
  refine ⟨?_, ?_, ?_, ?_, ?_⟩
  case _ =>
    cases res with
    | networkError => rfl
    | ok r =>
        cases hb : r.body with
        | parseError =>
            simp [createClipStep, createClipStart, createClipResolve, hb]
        | obj id => simp [chainRejects, hb] at hrej
  case _ =>
    cases res with
    | networkError => rfl
    | ok r =>
        cases hb : r.body with
        | parseError =>
            simp [createClipStep, createClipStart, createClipResolve, hb]
        | obj id => simp [chainRejects, hb] at hrej
  case _ =>
    cases res with
    | networkError =>
        simp [createClipStep, createClipStart, createClipResolve,
          isNavigate, List.filter]
    | ok r =>
        cases hb : r.body with
        | parseError =>
            simp [createClipStep, createClipStart, createClipResolve, hb,
              isNavigate, List.filter]
        | obj id => simp [chainRejects, hb] at hrej
  case _ =>
    cases res with
    | networkError =>
        simp [createClipStep, createClipStart, createClipResolve,
          isFetchPost, List.filter]
    | ok r =>
        cases hb : r.body with
        | parseError =>
            simp [createClipStep, createClipStart, createClipResolve, hb,
              isFetchPost, List.filter]
        | obj id => simp [chainRejects, hb] at hrej
  case _ =>
    intro st1 st2 b
    cases b <;>
      simp [createClipStep, createClipStart, createClipResolve]

/-- C2 witness: the amended claim at a concrete rejecting result (a
network error) from the state with markers 5 and 12. -/
theorem clip_rejection_error_handling_witness :
    (createClipStep "abc"
        { initState with startTime := some 5, endTime := some 12 }
        FetchResult.networkError).1.errorMessage = "Error creating this clip"
    ∧ (createClipStep "abc"
        { initState with startTime := some 5, endTime := some 12 }
        FetchResult.networkError).1.isCreatingClip = false
    ∧ (createClipStep "abc"
        { initState with startTime := some 5, endTime := some 12 }
        FetchResult.networkError).2.filter isNavigate = []
    ∧ ((createClipStep "abc"
        { initState with startTime := some 5, endTime := some 12 }
        FetchResult.networkError).2.filter isFetchPost).length = 1
    ∧ ∀ st1 st2 : ℕ, ∀ b : BodyParse,
        createClipStep "abc"
          { initState with startTime := some 5, endTime := some 12 }
          (FetchResult.ok ⟨st1, b⟩)
          = createClipStep "abc"
            { initState with startTime := some 5, endTime := some 12 }
            (FetchResult.ok ⟨st2, b⟩) :=
  clip_rejection_error_handling "abc"
    { initState with startTime := some 5, endTime := some 12 }
    FetchResult.networkError rfl

/-- C3 counterexample: with the playback position at 2.5 seconds, the
`Set start` button stores 3 (the rounded position), not 2.5 itself. -/
theorem set_start_stores_rounded_counterexample :
    (setStartClick (some (5/2)) initState).startTime = some ((3 : ℚ))
    ∧ (setStartClick (some (5/2)) initState).startTime ≠ some ((5/2 : ℚ)) := by
  constructor <;> · simp [setStartClick, jsRound, initState]; norm_num [Int.floor_eq_iff]

/-- C3 amended: `setStart` stores `Math.round(p)` (with `0` for a
missing position) as `startTime` — not `p` itself — and the marker-sync
effect then seeks the source to that stored value, provided it differs
from the previously synced one; symmetrically, `setEnd` stores
`Math.round(p)` as `endTime` and the effect seeks to it. -/
theorem set_marker_rounds_then_seeks (pos : Option ℚ) (s : ClipperState)
    (hs : some ((jsRound (pos.getD 0) : ℤ) : ℚ) ≠ s.prevStartTime)
    (he : some ((jsRound (pos.getD 0) : ℤ) : ℚ) ≠ s.prevEndTime) :
    (setStartClick pos s).startTime = some ((jsRound (pos.getD 0) : ℤ) : ℚ)
    ∧ Effect.seek ((jsRound (pos.getD 0) : ℤ) : ℚ)
        ∈ (runSeekEffect (setStartClick pos s)).2
    ∧ (setEndClick pos s).endTime = some ((jsRound (pos.getD 0) : ℤ) : ℚ)
    ∧ Effect.seek ((jsRound (pos.getD 0) : ℤ) : ℚ)
        ∈ (runSeekEffect (setEndClick pos s)).2 := by
  refine ⟨rfl, ?_, rfl, ?_⟩
  · simp [runSeekEffect, setStartClick, hs]
  · simp [runSeekEffect, setEndClick, he]

/-- C3 witness: position 2.5 from the initial state — the stored marker
is 3 and the effect seeks to 3, for both buttons. -/
theorem set_marker_rounds_then_seeks_witness :
    (setStartClick (some (5/2)) initState).startTime
        = some ((jsRound ((some (5/2) : Option ℚ).getD 0) : ℤ) : ℚ)
    ∧ Effect.seek ((jsRound ((some (5/2) : Option ℚ).getD 0) : ℤ) : ℚ)
        ∈ (runSeekEffect (setStartClick (some (5/2)) initState)).2
    ∧ (setEndClick (some (5/2)) initState).endTime
        = some ((jsRound ((some (5/2) : Option ℚ).getD 0) : ℤ) : ℚ)
    ∧ Effect.seek ((jsRound ((some (5/2) : Option ℚ).getD 0) : ℤ) : ℚ)
        ∈ (runSeekEffect (setEndClick (some (5/2)) initState)).2 :=
  set_marker_rounds_then_seeks (some (5/2)) initState
    (by simp [initState]) (by simp [initState])

/-- C4: the `updated` listener of the trimmer overwrites both markers
with exactly the values carried by the event — no validation, rounding
or rejection, whatever the previous state held. -/
theorem trimmer_update_overwrites_exactly (st en : ℚ) (s : ClipperState) :
    (onTrimmerUpdated st en s).startTime = some st
    ∧ (onTrimmerUpdated st en s).endTime = some en := ⟨rfl, rfl⟩

/-- C5: setting the start marker strictly after the end marker (in
either click order) leaves both markers present with exactly the values
the clicks store; no operation reorders or rejects the inverted pair,
and an inverted trimmer event is likewise stored as is. -/
theorem inverted_range_not_reordered (p1 p2 : Option ℚ) (st en : ℚ)
    (s : ClipperState)
    (_hinv : jsRound (p2.getD 0) < jsRound (p1.getD 0)) (_hinv2 : en < st) :
    (setEndClick p2 (setStartClick p1 s)).startTime
        = some ((jsRound (p1.getD 0) : ℤ) : ℚ)
    ∧ (setEndClick p2 (setStartClick p1 s)).endTime
        = some ((jsRound (p2.getD 0) : ℤ) : ℚ)
    ∧ (setStartClick p1 (setEndClick p2 s)).startTime
        = some ((jsRound (p1.getD 0) : ℤ) : ℚ)
    ∧ (setStartClick p1 (setEndClick p2 s)).endTime
        = some ((jsRound (p2.getD 0) : ℤ) : ℚ)
    ∧ (onTrimmerUpdated st en s).startTime = some st
    ∧ (onTrimmerUpdated st en s).endTime = some en := by
  exact ⟨rfl, rfl, rfl, rfl, rfl, rfl⟩

/-- C5 witness: start set at 9 with end at 4 (and an inverted trimmer
event (8, 2)): both values stay exactly as set. -/
theorem inverted_range_not_reordered_witness :
    (setEndClick (some 4) (setStartClick (some 9) initState)).startTime
        = some ((jsRound ((some 9 : Option ℚ).getD 0) : ℤ) : ℚ)
    ∧ (setEndClick (some 4) (setStartClick (some 9) initState)).endTime
        = some ((jsRound ((some 4 : Option ℚ).getD 0) : ℤ) : ℚ)
    ∧ (setStartClick (some 9) (setEndClick (some 4) initState)).startTime
        = some ((jsRound ((some 9 : Option ℚ).getD 0) : ℤ) : ℚ)
    ∧ (setStartClick (some 9) (setEndClick (some 4) initState)).endTime
        = some ((jsRound ((some 4 : Option ℚ).getD 0) : ℤ) : ℚ)
    ∧ (onTrimmerUpdated 8 2 initState).startTime = some 8
    ∧ (onTrimmerUpdated 8 2 initState).endTime = some 2 :=
  inverted_range_not_reordered (some 9) (some 4) 8 2 initState
    (by norm_num [jsRound]) (by norm_num)

/-- C6: the marker-sync effect runs on the committed state (the model of
React's render-commit-effect ordering), so after a rapid double click on
`Set start` the recorded `startTime` is the second click's rounded
position and every seek the effect issues targets a currently recorded
marker — never a stale, not-yet-recorded value. -/
theorem double_click_seeks_recorded_values (p1 p2 : Option ℚ)
    (s : ClipperState) (t : ℚ)
    (ht : Effect.seek t
        ∈ (runSeekEffect (setStartClick p2 (setStartClick p1 s))).2) :
    (setStartClick p2 (setStartClick p1 s)).startTime
        = some ((jsRound (p2.getD 0) : ℤ) : ℚ)
    ∧ (t = (setStartClick p2 (setStartClick p1 s)).startTime.getD 0
       ∨ t = (setStartClick p2 (setStartClick p1 s)).endTime.getD 0) := by
  refine ⟨rfl, ?_⟩
  simp only [runSeekEffect] at ht
  rcases List.mem_append.mp ht with h | h
  · rcases List.mem_append.mp h with h1 | h2
    · by_cases hc :
          (setStartClick p2 (setStartClick p1 s)).startTime
            = (setStartClick p2 (setStartClick p1 s)).prevStartTime
      · simp [hc] at h1
      · simp [hc] at h1
        exact Or.inl h1
    · by_cases hc :
          (setStartClick p2 (setStartClick p1 s)).endTime
            = (setStartClick p2 (setStartClick p1 s)).prevEndTime
      · simp [hc] at h2
      · simp [hc] at h2
        exact Or.inr h2
  · simp at h

/-- C6 witness: clicks at positions 1 then 2.5 from the initial state;
the effect's seek to 3 targets the recorded (second, rounded) marker. -/
theorem double_click_seeks_recorded_values_witness :
    (setStartClick (some (5/2)) (setStartClick (some 1) initState)).startTime
        = some ((jsRound ((some (5/2) : Option ℚ).getD 0) : ℤ) : ℚ)
    ∧ ((3 : ℚ) = (setStartClick (some (5/2))
          (setStartClick (some 1) initState)).startTime.getD 0
       ∨ (3 : ℚ) = (setStartClick (some (5/2))
          (setStartClick (some 1) initState)).endTime.getD 0) :=
  double_click_seeks_recorded_values (some 1) (some (5/2)) initState 3
    (by norm_num [runSeekEffect, setStartClick, initState, jsRound]
        simp)

/-- C7 (code evaluated at the failing input): the unmount cleanup of the
component — whether or not an `Hls` instance was created — contains no
fetch-abort action, and when a pending `createClip` fetch settles after
unmount its continuation still runs: it flips `isCreatingClip` back to
`false` (a state update) and issues the navigation to `/assets/xyz`. -/
theorem unmounted_pending_clip_continuation_still_runs :
    ((hlsEffectCleanup true true).contains CleanupAction.abortFetch = false)
    ∧ ((hlsEffectCleanup true false).contains CleanupAction.abortFetch = false)
    ∧ ((hlsEffectCleanup false false).contains CleanupAction.abortFetch = false)
    ∧ (createClipResolve { initState with isCreatingClip := true }
        (FetchResult.ok ⟨200, BodyParse.obj (some "xyz")⟩)).1.isCreatingClip
        = false
    ∧ (createClipResolve { initState with isCreatingClip := true }
        (FetchResult.ok ⟨200, BodyParse.obj (some "xyz")⟩)).1
        ≠ { initState with isCreatingClip := true }
    ∧ Effect.navigate "/assets/xyz"
        ∈ (createClipResolve { initState with isCreatingClip := true }
            (FetchResult.ok ⟨200, BodyParse.obj (some "xyz")⟩)).2 := by
  refine ⟨rfl, rfl, rfl, rfl, ?_, ?_⟩
  · intro h
    have := congrArg ClipperState.isCreatingClip h
    simp [createClipResolve, idString, initState] at this
  · simp [createClipResolve, idString]

/-- C8: when the poster probe cannot size the player (zero width or
height), the error is logged, `onLoaded` is still invoked, and the state
is left untouched (so layout falls back to the default styling); the
handler is total, so the failure is contained to this interaction. -/
theorem image_probe_failure_contained (w h : ℕ) (s : ClipperState)
    (hfail : w = 0 ∨ h = 0) :
    (onImageLoad w h s).1 = s
    ∧ Effect.callOnLoaded ∈ (onImageLoad w h s).2
    ∧ Effect.logError "Error getting img dimensions" ∈ (onImageLoad w h s).2 := by
  have hcond : ¬(w ≠ 0 ∧ h ≠ 0) := by
    rcases hfail with h0 | h0 <;> simp [h0]
  refine ⟨?_, ?_, ?_⟩ <;> simp [onImageLoad, hcond]

/-- C8 witness: a 0 × 480 probe result — `onLoaded` still fires, the
error is logged, and the state is unchanged. -/
theorem image_probe_failure_contained_witness :
    (onImageLoad 0 480 initState).1 = initState
    ∧ Effect.callOnLoaded ∈ (onImageLoad 0 480 initState).2
    ∧ Effect.logError "Error getting img dimensions"
        ∈ (onImageLoad 0 480 initState).2 :=
  image_probe_failure_contained 0 480 initState (Or.inl rfl)

/-- C9: the base-URL helpers return the fixed staging hosts for every
value of `NEXT_PUBLIC_MUX_BYO_DOMAIN` (the configured delivery domain is
read but never used — the output does not vary with it), while the
clipper's own media URL uses the distinct hard-coded host
`https://stream.mux.com`. -/
theorem base_urls_fixed_and_distinct (e1 e2 : Option String) (pid : String) :
    getStreamBaseUrl e1 = "https://stream.staging.mux.com"
    ∧ getImageBaseUrl e1 = "https://image.staging.mux.com"
    ∧ getStreamBaseUrl e1 = getStreamBaseUrl e2
    ∧ getImageBaseUrl e1 = getImageBaseUrl e2
    ∧ clipperVideoSrc pid = "https://stream.mux.com/" ++ pid ++ ".m3u8"
    ∧ getStreamBaseUrl e1 ≠ "https://stream.mux.com"
    ∧ deliveryDomain (some "cdn.example.com") = "cdn.example.com" := by
  refine ⟨rfl, rfl, rfl, rfl, rfl, ?_, rfl⟩
  intro h
  simp only [getStreamBaseUrl] at h
  exact absurd h (by decide)

/-- C10: a marker stored by `Set start` / `Set end` is a non-negative
integer — the JS rounding of the current position, or `0` when the
position is unavailable — while a trimmer event's values are stored
unchanged (hence may be fractional, e.g. 3.2). -/
theorem button_markers_are_rounded_integers (pos : Option ℚ)
    (s : ClipperState) (hpos : 0 ≤ pos.getD 0) :
    (setStartClick pos s).startTime
        = some ((jsRound (pos.getD 0) : ℤ) : ℚ)
    ∧ (∃ n : ℕ, (setStartClick pos s).startTime = some ((n : ℕ) : ℚ))
    ∧ (setEndClick pos s).endTime
        = some ((jsRound (pos.getD 0) : ℤ) : ℚ)
    ∧ (∃ n : ℕ, (setEndClick pos s).endTime = some ((n : ℕ) : ℚ))
    ∧ (∀ st en : ℚ, (onTrimmerUpdated st en s).startTime = some st
        ∧ (onTrimmerUpdated st en s).endTime = some en)
    ∧ (onTrimmerUpdated (16/5) (97/10) s).startTime = some ((16/5 : ℚ))
    ∧ ¬(∃ k : ℤ, (16/5 : ℚ) = (k : ℚ)) := by
  have hnn : 0 ≤ jsRound (pos.getD 0) := by
    rw [jsRound]
    exact Int.le_floor.mpr (by push_cast; linarith)
  refine ⟨rfl, ?_, rfl, ?_, fun st en => ⟨rfl, rfl⟩, rfl, ?_⟩
  · exact ⟨(jsRound (pos.getD 0)).toNat, by
      simp only [setStartClick]
      exact congrArg some (by exact_mod_cast (Int.toNat_of_nonneg hnn).symm)⟩
  · exact ⟨(jsRound (pos.getD 0)).toNat, by
      simp only [setEndClick]
      exact congrArg some (by exact_mod_cast (Int.toNat_of_nonneg hnn).symm)⟩
  · rintro ⟨k, hk⟩
    have h5 : ((16 : ℚ)/5) * 5 = (k : ℚ) * 5 := by rw [hk]
    norm_num at h5
    have h5' : (16 : ℤ) = k * 5 := by exact_mod_cast h5
    omega

/-- C10 witness: the claim at position 7/3 — the stored marker is the
non-negative integer 2 (as `jsRound (7/3) = 2`), while the trimmer
event's 3.2 is stored as the fraction 16/5. -/
theorem button_markers_are_rounded_integers_witness :
    (setStartClick (some (7/3)) initState).startTime
        = some ((jsRound ((some (7/3) : Option ℚ).getD 0) : ℤ) : ℚ)
    ∧ (∃ n : ℕ, (setStartClick (some (7/3)) initState).startTime
        = some ((n : ℕ) : ℚ))
    ∧ (setEndClick (some (7/3)) initState).endTime
        = some ((jsRound ((some (7/3) : Option ℚ).getD 0) : ℤ) : ℚ)
    ∧ (∃ n : ℕ, (setEndClick (some (7/3)) initState).endTime
        = some ((n : ℕ) : ℚ))
    ∧ (∀ st en : ℚ, (onTrimmerUpdated st en initState).startTime = some st
        ∧ (onTrimmerUpdated st en initState).endTime = some en)
    ∧ (onTrimmerUpdated (16/5) (97/10) initState).startTime = some ((16/5 : ℚ))
    ∧ ¬(∃ k : ℤ, (16/5 : ℚ) = (k : ℚ)) :=
  button_markers_are_rounded_integers (some (7/3)) initState (by norm_num)
